import Mathlib

/-!
Shallow embedding of the authentication and record-service core of the
multi-domain intelligence platform (Python/Streamlit sources under `src/`).

Conventions of the embedding:
* SQLite tables become Lean lists of row structures; a row id is `Int`
  (SQLite integers may be negative).
* `fetch_one` with a `WHERE col = ?` clause becomes `List.find?` with
  `BEq` equality on the column (SQLite `=` on TEXT is case-sensitive
  binary comparison, matching `==` on `String`).
* Python truthiness on strings (`if not username`) becomes `= ""`;
  Python `x or d` on an integer-or-None value becomes `pyOrInt`
  (`None` and `0` are falsy).
* Character predicates `str.isupper` / `islower` / `isdigit` are embedded
  with their ASCII semantics (`Char.isUpper` etc.); the embedding covers
  ASCII strings, where the Python predicates coincide with these.
* `datetime.now()` is passed in as an explicit string argument, since the
  services only store it opaquely.
* Store writes cannot fail in the embedding, so the `try/except` wrappers
  around inserts have no failure branch to model; the `try/except` around
  bcrypt verification is modelled by the `malformed` hash constructor.
-/

namespace Platform

/-- Modelled from the spec: bcrypt hashes (the `bcrypt` library is not part
of the repository sources). Per spec 4.1, a hash is a salted, irreversible
digest; verification re-hashes the candidate password under the embedded
salt and compares. A hash value is either a well-formed salted digest, or a
malformed string (on which `bcrypt.checkpw` raises). The digest is modelled
as the (salt, password) pair itself: verification succeeds exactly when the
candidate password re-hashed under the embedded salt reproduces the digest. -/
inductive StoredHash where
  | valid : Nat → Nat × String → StoredHash
  | malformed : String → StoredHash
deriving DecidableEq, Repr

/-- Modelled from the spec: `bcrypt.hashpw` with a fresh salt (the salt is
passed explicitly since the embedding is pure). -/
def hash_password (salt : Nat) (plain_password : String) : StoredHash :=
  StoredHash.valid salt (salt, plain_password)

/-- `PasswordHasher.check_password` (src/services/auth_manager.py:27-45):
verifies a password against a hash, returning `false` instead of raising
when the hash is malformed (the `try/except` branch). -/
def check_password (plain_password : String) (hashed_password : StoredHash) : Bool :=
  match hashed_password with
  | StoredHash.valid salt digest => digest == (salt, plain_password)
  | StoredHash.malformed _ => false

/-- `validate_password` (src/services/auth_manager.py:61-83 and the textually
identical src/app/auth.py:17-39): length, uppercase, lowercase, digit checks
in that order, returning the first violated rule's message. -/
def validate_password (password : String) : Bool × String :=
  if password.data.length < 8 then
    (false, "Password must be at least 8 characters long")
  else if !(password.data.any Char.isUpper) then
    (false, "Password must contain at least one uppercase letter")
  else if !(password.data.any Char.isLower) then
    (false, "Password must contain at least one lowercase letter")
  else if !(password.data.any Char.isDigit) then
    (false, "Password must contain at least one number")
  else
    (true, "Password is valid")

/-- A row of the `users` table (schema: id PK, username, password_hash, role). -/
structure UserRow where
  id : Int
  username : String
  password_hash : StoredHash
  role : String
deriving DecidableEq, Repr

/-- The `User` entity (src/models/user.py): holds id, username,
password_hash and role; `get_password_hash` is a public accessor. -/
structure User where
  id : Int
  username : String
  password_hash : StoredHash
  role : String
deriving DecidableEq, Repr

/-- `User.get_password_hash` (src/models/user.py:33-35). -/
def User.get_password_hash (u : User) : StoredHash :=
  u.password_hash

/-- `User.verify_password` (src/models/user.py:37-48), with the hasher fixed
to `PasswordHasher` as in `AuthManager.login_user`. -/
def User.verify_password (u : User) (plain_password : String) : Bool :=
  check_password plain_password u.password_hash

/-- `AuthManager.user_exists` (src/services/auth_manager.py:85-99):
`SELECT 1 FROM users WHERE username = ?` is non-empty. SQLite `=` on TEXT
is case-sensitive. -/
def user_exists (users : List UserRow) (username : String) : Bool :=
  (users.find? (fun r => r.username == username)).isSome

/-- SQLite rowid assignment for `INSERT INTO users (username, ...)` with no
explicit id: largest existing rowid plus one (one-plus-max, 1 on empty). -/
def next_user_id (users : List UserRow) : Int :=
  (users.foldl (fun acc r => max acc r.id) 0) + 1

/-- `AuthManager.register_user` (src/services/auth_manager.py:101-141) and
the textually identical `register_user` (src/app/auth.py:69-108): input
checks in source order, then hash and insert. Returns the
(success, message) pair and the resulting users table. (The Python success
message additionally quotes the username.) -/
def register_user (users : List UserRow) (salt : Nat)
    (username password role : String) : (Bool × String) × List UserRow :=
  if username = "" || password = "" then
    ((false, "Username and password are required"), users)
  else if username.data.length < 3 then
    ((false, "Username must be at least 3 characters"), users)
  else if !(validate_password password).1 then
    ((false, (validate_password password).2), users)
  else if user_exists users username then
    ((false, "Username already exists"), users)
  else
    let password_hash := hash_password salt password
    let row : UserRow := ⟨next_user_id users, username, password_hash, role⟩
    ((true, "User " ++ username ++ " registered successfully"), users ++ [row])

/-- The SQL text of the login lookup, recorded in the query trace. -/
def selectUserSql : String :=
  "SELECT id, username, password_hash, role FROM users WHERE username = ?"

/-- `AuthManager.login_user` (src/services/auth_manager.py:143-183): returns
the full `User` object on success, `none` on any failure (empty input,
unknown username, or failed verification). The second component records the
queries issued to the store. -/
def login_user (users : List UserRow) (username password : String) :
    Option User × List String :=
  if username = "" || password = "" then
    (none, [])
  else
    match users.find? (fun r => r.username == username) with
    | none => (none, [selectUserSql])
    | some row =>
      let user : User := ⟨row.id, row.username, row.password_hash, row.role⟩
      if user.verify_password password then
        (some user, [selectUserSql])
      else
        (none, [selectUserSql])

/-- `authenticate_user` (src/app/auth.py:110-143): returns
(success, user_data, message) where user_data is the (id, username, role)
dictionary; failure messages distinguish unknown user from wrong password.
The second component records the queries issued to the store. -/
def authenticate_user (users : List UserRow) (username password : String) :
    (Bool × Option (Int × String × String) × String) × List String :=
  if username = "" || password = "" then
    ((false, none, "Username and password are required"), [])
  else
    match users.find? (fun r => r.username == username) with
    | none => ((false, none, "User not found"), [selectUserSql])
    | some row =>
      if check_password password row.password_hash then
        ((true, some (row.id, row.username, row.role), "Login successful"),
          [selectUserSql])
      else
        ((false, none, "Incorrect password"), [selectUserSql])

/-- SQL `MAX(col)` over a table column: `NULL` (`none`) on an empty table,
otherwise the maximum value. -/
def sql_max_id (ids : List Int) : Option Int :=
  ids.max?

/-- Python `x or d` where `x` is an integer-or-None SQL aggregate: both
`None` and `0` are falsy, so the default is used for either. -/
def pyOrInt (x : Option Int) (d : Int) : Int :=
  match x with
  | none => d
  | some v => if v = 0 then d else v

/-- A row of the `cyber_incidents` table
(incident_id PK, timestamp, category, severity, status, description). -/
structure IncidentRow where
  incident_id : Int
  timestamp : String
  category : String
  severity : String
  status : String
  description : String
deriving DecidableEq, Repr

/-- The `SecurityIncident` entity (src/models/security_incident.py), as
constructed by `IncidentService` from a row: the constructor defaults
`timestamp` and `reported_by` to `None`; the service always passes the
row's timestamp and never passes `reported_by`. -/
structure SecurityIncident where
  id : Int
  incident_type : String
  severity : String
  status : String
  description : String
  timestamp : Option String
  reported_by : Option String
deriving DecidableEq, Repr

/-- `IncidentService.get_incident_by_id` (src/services/incident_service.py:46-71). -/
def get_incident_by_id (tbl : List IncidentRow) (incident_id : Int) :
    Option SecurityIncident :=
  (tbl.find? (fun r => r.incident_id == incident_id)).map (fun row =>
    ⟨row.incident_id, row.category, row.severity, row.status,
      row.description, some row.timestamp, none⟩)

/-- The next incident id computed by `IncidentService.create_incident`
(src/services/incident_service.py:149-153): `(max_row['max_id'] or 1000) + 1`. -/
def next_incident_id (tbl : List IncidentRow) : Int :=
  pyOrInt (sql_max_id (tbl.map (fun r => r.incident_id))) 1000 + 1

/-- `IncidentService.create_incident` (src/services/incident_service.py:133-163):
computes the next id, inserts the row with status `'Open'` and the current
timestamp, and returns the new id. The `reported_by` parameter is accepted
but does not appear in the INSERT column list. -/
def create_incident (tbl : List IncidentRow) (incident_type severity description : String)
    (reported_by : Option String) (now : String) : Int × List IncidentRow :=
  let _ := reported_by
  let next_id := next_incident_id tbl
  (next_id, tbl ++ [⟨next_id, now, incident_type, severity, "Open", description⟩])

/-- `IncidentService.update_incident_status` (src/services/incident_service.py:165-180):
`UPDATE cyber_incidents SET status = ? WHERE incident_id = ?`; returns
`rowcount > 0` and the updated table. -/
def update_incident_status (tbl : List IncidentRow) (incident_id : Int)
    (new_status : String) : Bool × List IncidentRow :=
  (tbl.countP (fun r => r.incident_id == incident_id) > 0,
    tbl.map (fun r =>
      if r.incident_id == incident_id then { r with status := new_status } else r))

/-- `IncidentService.delete_incident` (src/services/incident_service.py:182-196). -/
def delete_incident (tbl : List IncidentRow) (incident_id : Int) :
    Bool × List IncidentRow :=
  (tbl.countP (fun r => r.incident_id == incident_id) > 0,
    tbl.filter (fun r => !(r.incident_id == incident_id)))

/-- A row of the `it_tickets` table (ticket_id PK, priority, description,
status, assigned_to NULL, created_at, resolution_time_hours NULL). -/
structure TicketRow where
  ticket_id : Int
  priority : String
  description : String
  status : String
  assigned_to : Option String
  created_at : String
  resolution_time_hours : Option Int
deriving DecidableEq, Repr

/-- The `ITTicket` entity (src/models/it_ticket.py), as constructed by
`TicketService` from a row. -/
structure ITTicket where
  id : Int
  priority : String
  description : String
  status : String
  assigned_to : Option String
  created_at : String
  resolution_time_hours : Option Int
deriving DecidableEq, Repr

/-- `TicketService.get_ticket_by_id` (src/services/ticket_service.py:48-75). -/
def get_ticket_by_id (tbl : List TicketRow) (ticket_id : Int) : Option ITTicket :=
  (tbl.find? (fun r => r.ticket_id == ticket_id)).map (fun row =>
    ⟨row.ticket_id, row.priority, row.description, row.status,
      row.assigned_to, row.created_at, row.resolution_time_hours⟩)

/-- The next ticket id computed by `TicketService.create_ticket`
(src/services/ticket_service.py:188-192): `(max_row['max_id'] or 2000) + 1`. -/
def next_ticket_id (tbl : List TicketRow) : Int :=
  pyOrInt (sql_max_id (tbl.map (fun r => r.ticket_id))) 2000 + 1

/-- `TicketService.create_ticket` (src/services/ticket_service.py:173-204):
inserts with status `'Open'`, no resolution_time_hours column (NULL), and
returns the new id. -/
def create_ticket (tbl : List TicketRow) (priority description : String)
    (assigned_to : Option String) (now : String) : Int × List TicketRow :=
  let next_id := next_ticket_id tbl
  (next_id, tbl ++ [⟨next_id, priority, description, "Open", assigned_to, now, none⟩])

/-- `TicketService.update_ticket_status` (src/services/ticket_service.py:206-221). -/
def update_ticket_status (tbl : List TicketRow) (ticket_id : Int)
    (new_status : String) : Bool × List TicketRow :=
  (tbl.countP (fun r => r.ticket_id == ticket_id) > 0,
    tbl.map (fun r =>
      if r.ticket_id == ticket_id then { r with status := new_status } else r))

/-- `TicketService.assign_ticket` (src/services/ticket_service.py:223-238). -/
def assign_ticket (tbl : List TicketRow) (ticket_id : Int)
    (assigned_to : Option String) : Bool × List TicketRow :=
  (tbl.countP (fun r => r.ticket_id == ticket_id) > 0,
    tbl.map (fun r =>
      if r.ticket_id == ticket_id then { r with assigned_to := assigned_to } else r))

/-- `TicketService.delete_ticket` (src/services/ticket_service.py:240-254). -/
def delete_ticket (tbl : List TicketRow) (ticket_id : Int) :
    Bool × List TicketRow :=
  (tbl.countP (fun r => r.ticket_id == ticket_id) > 0,
    tbl.filter (fun r => !(r.ticket_id == ticket_id)))

/-- A row of the `datasets_metadata` table
(dataset_id PK, name, rows, columns, uploaded_by, upload_date). -/
structure DatasetRow where
  dataset_id : Int
  name : String
  rows : Int
  columns : Int
  uploaded_by : String
  upload_date : String
deriving DecidableEq, Repr

/-- The `Dataset` entity (src/models/dataset.py), as constructed by
`DatasetService` from a row. -/
structure Dataset where
  id : Int
  name : String
  rows : Int
  columns : Int
  uploaded_by : String
  upload_date : String
deriving DecidableEq, Repr

/-- `DatasetService.get_dataset_by_id` (src/services/dataset_service.py:46-71). -/
def get_dataset_by_id (tbl : List DatasetRow) (dataset_id : Int) : Option Dataset :=
  (tbl.find? (fun r => r.dataset_id == dataset_id)).map (fun row =>
    ⟨row.dataset_id, row.name, row.rows, row.columns,
      row.uploaded_by, row.upload_date⟩)

/-- The next dataset id computed by `DatasetService.create_dataset`
(src/services/dataset_service.py:119-123): `(max_row['max_id'] or 0) + 1`. -/
def next_dataset_id (tbl : List DatasetRow) : Int :=
  pyOrInt (sql_max_id (tbl.map (fun r => r.dataset_id))) 0 + 1

/-- `DatasetService.create_dataset` (src/services/dataset_service.py:103-135). -/
def create_dataset (tbl : List DatasetRow) (name : String) (rows columns : Int)
    (uploaded_by : String) (now : String) : Int × List DatasetRow :=
  let next_id := next_dataset_id tbl
  (next_id, tbl ++ [⟨next_id, name, rows, columns, uploaded_by, now⟩])

/-- `DatasetService.delete_dataset` (src/services/dataset_service.py:137-151). -/
def delete_dataset (tbl : List DatasetRow) (dataset_id : Int) :
    Bool × List DatasetRow :=
  (tbl.countP (fun r => r.dataset_id == dataset_id) > 0,
    tbl.filter (fun r => !(r.dataset_id == dataset_id)))

/-- The enumerated severity/priority set of the data model. -/
def severityLevels : List String :=
  ["Low", "Medium", "High", "Critical"]

/-- The enumerated incident status set of the data model. -/
def incidentStatuses : List String :=
  ["Open", "In Progress", "Resolved", "Closed"]

/-- The enumerated ticket status set of the data model. -/
def ticketStatuses : List String :=
  ["Open", "In Progress", "Resolved", "Closed", "Waiting for User"]

/-- The enumerated account role set of the data model. -/
def accountRoles : List String :=
  ["user", "analyst", "admin"]

/-! Theorems. -/

/-- C3: verification succeeds on the hash of the same password, fails on the
hash of any distinct password, and returns false (rather than raising) on a
malformed hash argument. -/
theorem check_password_spec (salt : Nat) (p q s : String) :
    check_password p (hash_password salt p) = true ∧
    (p ≠ q → check_password p (hash_password salt q) = false) ∧
    check_password p (StoredHash.malformed s) = false := by
  refine ⟨by simp [check_password, hash_password], ?_, rfl⟩
  intro hpq
  have hqp : q ≠ p := Ne.symm hpq
  simp [check_password, hash_password, hqp]

/-- C3 witness: concrete instance of the round-trip and mismatch behaviour. -/
theorem check_password_spec_witness :
    check_password "GoodPass1" (hash_password 7 "GoodPass1") = true ∧
    check_password "GoodPass1" (hash_password 7 "OtherPw1") = false :=
  ⟨(check_password_spec 7 "GoodPass1" "OtherPw1" "x").1,
   (check_password_spec 7 "GoodPass1" "OtherPw1" "x").2.1 (by decide)⟩

/-- C4: `validate_password` accepts exactly the passwords of length at
least 8 containing an uppercase letter, a lowercase letter and a digit, and
on failure reports the first violated rule in the order length, uppercase,
lowercase, digit. -/
theorem validate_password_spec (p : String) :
    ((validate_password p).1 = true ↔
      (8 ≤ p.data.length ∧ p.data.any Char.isUpper = true ∧
        p.data.any Char.isLower = true ∧ p.data.any Char.isDigit = true)) ∧
    (p.data.length < 8 →
      validate_password p = (false, "Password must be at least 8 characters long")) ∧
    (8 ≤ p.data.length → p.data.any Char.isUpper = false →
      validate_password p = (false, "Password must contain at least one uppercase letter")) ∧
    (8 ≤ p.data.length → p.data.any Char.isUpper = true → p.data.any Char.isLower = false →
      validate_password p = (false, "Password must contain at least one lowercase letter")) ∧
    (8 ≤ p.data.length → p.data.any Char.isUpper = true → p.data.any Char.isLower = true →
      p.data.any Char.isDigit = false →
      validate_password p = (false, "Password must contain at least one number")) := by
  unfold validate_password
  split_ifs with h1 h2 h3 h4 <;> simp_all

/-- C4 witness: the five example passwords of the spec, each rejected with
the stated first violated rule, and the last accepted. -/
theorem validate_password_spec_witness :
    validate_password "short1A" =
      (false, "Password must be at least 8 characters long") ∧
    validate_password "alllowercase1" =
      (false, "Password must contain at least one uppercase letter") ∧
    validate_password "ALLUPPER1" =
      (false, "Password must contain at least one lowercase letter") ∧
    validate_password "NoDigitsHere" =
      (false, "Password must contain at least one number") ∧
    (validate_password "GoodPass1").1 = true :=
  ⟨(validate_password_spec "short1A").2.1 (by decide),
   (validate_password_spec "alllowercase1").2.2.1 (by decide) (by decide),
   (validate_password_spec "ALLUPPER1").2.2.2.1 (by decide) (by decide) (by decide),
   (validate_password_spec "NoDigitsHere").2.2.2.2 (by decide) (by decide)
     (by decide) (by decide),
   (validate_password_spec "GoodPass1").1.2 (by decide)⟩

/-- C10: a login call with an empty username or an empty password fails
(no account is produced) and issues no query to the store, in both the
service-level `login_user` and the app-level `authenticate_user`. -/
theorem login_empty_input_no_query (users : List UserRow) (u p : String)
    (h : u = "" ∨ p = "") :
    login_user users u p = (none, []) ∧
    authenticate_user users u p =
      ((false, none, "Username and password are required"), []) := by
  have hb : (u = "" || p = "") = true := by
    rcases h with h | h <;> simp [h]
  constructor <;> simp [login_user, authenticate_user, hb]

/-- C10 witness: concrete empty-username login on a nonempty store. -/
theorem login_empty_input_no_query_witness :
    login_user [⟨1, "alice", hash_password 7 "Secret1A", "user"⟩] "" "Secret1A" =
      (none, []) ∧
    authenticate_user [⟨1, "alice", hash_password 7 "Secret1A", "user"⟩] "" "Secret1A" =
      ((false, none, "Username and password are required"), []) :=
  login_empty_input_no_query [⟨1, "alice", hash_password 7 "Secret1A", "user"⟩]
    "" "Secret1A" (Or.inl rfl)

/-- C1: `register_user` runs its checks in the source order — empty input,
username length, password strength, duplicate username — and on every
failing check returns with the corresponding message and an unchanged
users table. -/
theorem register_user_check_order (users : List UserRow) (salt : Nat)
    (u p r : String) :
    ((u = "" ∨ p = "") → register_user users salt u p r =
      ((false, "Username and password are required"), users)) ∧
    (u ≠ "" → p ≠ "" → u.data.length < 3 → register_user users salt u p r =
      ((false, "Username must be at least 3 characters"), users)) ∧
    (u ≠ "" → p ≠ "" → 3 ≤ u.data.length → (validate_password p).1 = false →
      register_user users salt u p r = ((false, (validate_password p).2), users)) ∧
    (u ≠ "" → p ≠ "" → 3 ≤ u.data.length → (validate_password p).1 = true →
      user_exists users u = true →
      register_user users salt u p r = ((false, "Username already exists"), users)) ∧
    ((register_user users salt u p r).1.1 = false →
      (register_user users salt u p r).2 = users) := by
  refine ⟨?_, ?_, ?_, ?_, ?_⟩
  · intro h
    have hb : (u = "" || p = "") = true := by
      rcases h with h | h <;> simp [h]
    simp [register_user, hb]
  · intro hu hp hlen
    have hlen2 : u.length < 3 := hlen
    simp [register_user, hu, hp, hlen2]
  · intro hu hp hlen hv
    have hlen' : ¬ u.length < 3 := Nat.not_lt.mpr hlen
    simp [register_user, hu, hp, hlen', hv]
  · intro hu hp hlen hv hex
    have hlen' : ¬ u.length < 3 := Nat.not_lt.mpr hlen
    simp [register_user, hu, hp, hlen', hv, hex]
  · intro hfail
    unfold register_user at hfail ⊢
    split_ifs at hfail ⊢ <;> simp_all

/-- C1 witness: a weak password is rejected with the strength rule's
message and the store is unchanged. -/
theorem register_user_check_order_witness :
    register_user [] 7 "bob" "weakpass" "user" =
      ((false, "Password must contain at least one uppercase letter"), []) :=
  ((register_user_check_order [] 7 "bob" "weakpass" "user").2.2.1
    (by decide) (by decide) (by decide) (by decide)).trans (by decide)

/-- C2 counterexample: on the service-level `AuthManager.login_user` the two
failure causes are not distinguishable — an unknown username and a wrong
password for an existing account both return `None`. -/
theorem login_user_failures_indistinguishable :
    (login_user [⟨1, "alice", hash_password 7 "Secret1A", "user"⟩]
      "ghost" "Anything1").1 = none ∧
    (login_user [⟨1, "alice", hash_password 7 "Secret1A", "user"⟩]
      "alice" "WrongPw1").1 = none ∧
    (login_user [⟨1, "alice", hash_password 7 "Secret1A", "user"⟩]
        "ghost" "Anything1").1 =
      (login_user [⟨1, "alice", hash_password 7 "Secret1A", "user"⟩]
        "alice" "WrongPw1").1 := by
  decide

/-- C2 amended: the app-level `authenticate_user` distinguishes the two
failure causes by distinct messages (unknown username versus failed
verification), while the service-level `login_user` returns `None` for
both. -/
theorem authenticate_user_failures_distinguishable (users : List UserRow)
    (u p : String) (hu : u ≠ "") (hp : p ≠ "") :
    (users.find? (fun r => r.username == u) = none →
      (authenticate_user users u p).1 = (false, none, "User not found") ∧
      (login_user users u p).1 = none) ∧
    (∀ row, users.find? (fun r => r.username == u) = some row →
      check_password p row.password_hash = false →
      (authenticate_user users u p).1 = (false, none, "Incorrect password") ∧
      (login_user users u p).1 = none) ∧
    ("User not found" : String) ≠ "Incorrect password" := by
  have hb : (u = "" || p = "") = false := by simp [hu, hp]
  refine ⟨?_, ?_, by decide⟩
  · intro hnone
    constructor <;> simp [authenticate_user, login_user, hb, hnone]
  · intro row hrow hchk
    constructor <;>
      simp [authenticate_user, login_user, hb, hrow, hchk, User.verify_password]

/-- C2 witness: on a concrete store, the two failure messages returned by
`authenticate_user` are the two distinct ones. -/
theorem authenticate_user_failures_distinguishable_witness :
    (authenticate_user [⟨1, "alice", hash_password 7 "Secret1A", "user"⟩]
        "ghost" "Anything1").1 = (false, none, "User not found") ∧
    (authenticate_user [⟨1, "alice", hash_password 7 "Secret1A", "user"⟩]
        "alice" "WrongPw1").1 = (false, none, "Incorrect password") :=
  ⟨((authenticate_user_failures_distinguishable
      [⟨1, "alice", hash_password 7 "Secret1A", "user"⟩] "ghost" "Anything1"
      (by decide) (by decide)).1 (by decide)).1,
   ((authenticate_user_failures_distinguishable
      [⟨1, "alice", hash_password 7 "Secret1A", "user"⟩] "alice" "WrongPw1"
      (by decide) (by decide)).2.1
      ⟨1, "alice", hash_password 7 "Secret1A", "user"⟩ (by decide) (by decide)).1⟩

/-- C5 counterexample: a successful service-level login returns the full
`User` object, from which the stored password hash is recovered by the
public accessor `get_password_hash` — so the returned value does contain
the hash. -/
theorem login_user_exposes_password_hash :
    ((login_user [⟨1, "alice", hash_password 7 "Secret1A", "user"⟩]
        "alice" "Secret1A").1).isSome = true ∧
    Option.map User.get_password_hash
        (login_user [⟨1, "alice", hash_password 7 "Secret1A", "user"⟩]
          "alice" "Secret1A").1
      = some (hash_password 7 "Secret1A") := by
  decide

/-- C5 amended: on a successful login the app-level `authenticate_user`
returns exactly (id, username, role) — the hash is absent from the returned
payload — while the service-level `login_user` returns the full `User`
entity, which still carries the stored password hash, exposed by
`get_password_hash`. -/
theorem login_success_payload (users : List UserRow) (u p : String)
    (row : UserRow) (hu : u ≠ "") (hp : p ≠ "")
    (hrow : users.find? (fun r => r.username == u) = some row)
    (hchk : check_password p row.password_hash = true) :
    (authenticate_user users u p).1 =
      (true, some (row.id, row.username, row.role), "Login successful") ∧
    (login_user users u p).1 =
      some ⟨row.id, row.username, row.password_hash, row.role⟩ ∧
    Option.map User.get_password_hash (login_user users u p).1 =
      some row.password_hash := by
  have hb : (u = "" || p = "") = false := by simp [hu, hp]
  refine ⟨?_, ?_, ?_⟩ <;>
    simp [authenticate_user, login_user, hb, hrow, hchk,
      User.verify_password, User.get_password_hash]

/-- C5 witness: concrete successful login returning exactly
(id, username, role) from the app flow. -/
theorem login_success_payload_witness :
    (authenticate_user [⟨1, "alice", hash_password 7 "Secret1A", "user"⟩]
        "alice" "Secret1A").1
      = (true, some (1, "alice", "user"), "Login successful") :=
  (login_success_payload [⟨1, "alice", hash_password 7 "Secret1A", "user"⟩]
    "alice" "Secret1A" ⟨1, "alice", hash_password 7 "Secret1A", "user"⟩
    (by decide) (by decide) (by decide) (by decide)).1

/-- C8: a status update on an id that is not present returns false and
leaves the table unchanged (it is a total function, so nothing is raised);
and updateStatus/assign/delete each return true exactly when at least one
row matches the id. -/
theorem write_ops_row_affected (incs : List IncidentRow) (tix : List TicketRow)
    (ds : List DatasetRow) (iid tid did : Int) (s : String)
    (asg : Option String) :
    ((∀ r ∈ incs, r.incident_id ≠ iid) →
      update_incident_status incs iid s = (false, incs)) ∧
    ((∀ r ∈ tix, r.ticket_id ≠ tid) →
      update_ticket_status tix tid s = (false, tix)) ∧
    ((update_incident_status incs iid s).1 = true ↔
      ∃ r ∈ incs, r.incident_id = iid) ∧
    ((update_ticket_status tix tid s).1 = true ↔
      ∃ r ∈ tix, r.ticket_id = tid) ∧
    ((assign_ticket tix tid asg).1 = true ↔ ∃ r ∈ tix, r.ticket_id = tid) ∧
    ((delete_incident incs iid).1 = true ↔ ∃ r ∈ incs, r.incident_id = iid) ∧
    ((delete_ticket tix tid).1 = true ↔ ∃ r ∈ tix, r.ticket_id = tid) ∧
    ((delete_dataset ds did).1 = true ↔ ∃ r ∈ ds, r.dataset_id = did) := by
  refine ⟨?_, ?_, ?_, ?_, ?_, ?_, ?_, ?_⟩
  · intro h
    unfold update_incident_status
    have h0 : incs.countP (fun r => r.incident_id == iid) = 0 := by
      rw [List.countP_eq_zero]
      intro a ha
      simpa using h a ha
    have hm : incs.map
        (fun r => if r.incident_id == iid then { r with status := s } else r) = incs := by
      refine (List.map_congr_left ?_).trans (List.map_id incs)
      intro a ha
      simp [h a ha]
    rw [hm, h0]
    simp
  · intro h
    unfold update_ticket_status
    have h0 : tix.countP (fun r => r.ticket_id == tid) = 0 := by
      rw [List.countP_eq_zero]
      intro a ha
      simpa using h a ha
    have hm : tix.map
        (fun r => if r.ticket_id == tid then { r with status := s } else r) = tix := by
      refine (List.map_congr_left ?_).trans (List.map_id tix)
      intro a ha
      simp [h a ha]
    rw [hm, h0]
    simp
  · simp [update_incident_status, List.countP_pos_iff]
  · simp [update_ticket_status, List.countP_pos_iff]
  · simp [assign_ticket, List.countP_pos_iff]
  · simp [delete_incident, List.countP_pos_iff]
  · simp [delete_ticket, List.countP_pos_iff]
  · simp [delete_dataset, List.countP_pos_iff]

/-- C8 witness: concrete update of a nonexistent id returns false and the
table is unchanged. -/
theorem write_ops_row_affected_witness :
    update_incident_status [⟨1001, "T0", "Phishing", "High", "Open", "d"⟩]
      9999 "Closed"
      = (false, [⟨1001, "T0", "Phishing", "High", "Open", "d"⟩]) :=
  (write_ops_row_affected [⟨1001, "T0", "Phishing", "High", "Open", "d"⟩]
    [] [] 9999 0 0 "Closed" none).1 (by decide)

/-- SQL MAX characterization: it returns exactly the member of the column
that bounds every entry. -/
theorem sql_max_id_eq_some_iff (l : List Int) (m : Int) :
    sql_max_id l = some m ↔ m ∈ l ∧ ∀ x ∈ l, x ≤ m := by
  unfold sql_max_id
  exact @List.max?_eq_some_iff Int _ _ _
    ⟨fun {a b : Int} (h : a ≤ b) (h2 : b ≤ a) => le_antisymm h h2⟩
    (fun a => le_refl a) (fun a b => max_choice a b) (fun a b c => max_le_iff) l

/-- Each column entry is strictly below the allocated next id, for any
nonnegative floor (1000 for incidents, 2000 for tickets, 0 for datasets). -/
theorem mem_lt_next_id (ids : List Int) (floor x : Int)
    (hfloor : 0 ≤ floor) (hx : x ∈ ids) :
    x < pyOrInt (sql_max_id ids) floor + 1 := by
  cases hmax : sql_max_id ids with
  | none =>
    unfold sql_max_id at hmax
    rw [List.max?_eq_none_iff] at hmax
    subst hmax
    simp at hx
  | some m =>
    have hle : x ≤ m := ((sql_max_id_eq_some_iff ids m).mp hmax).2 x hx
    unfold pyOrInt
    by_cases hm : m = 0
    · subst hm
      simp only [if_pos rfl]
      omega
    · simp only [if_neg hm]
      omega

/-- `fetch_one` with a fresh key over an appended row finds the new row. -/
theorem find_append_fresh {α : Type} (p : α → Bool) (l : List α) (a : α)
    (hl : ∀ x ∈ l, p x = false) (ha : p a = true) :
    (l ++ [a]).find? p = some a := by
  rw [List.find?_append]
  have hnone : l.find? p = none := by
    rw [List.find?_eq_none]
    intro x hx
    simp [hl x hx]
  simp [hnone, List.find?_cons, ha]

/-- C6 counterexample: with a single incident row of id 0, the current
maximum id is 0 but `create_incident` allocates 1001, not 0 + 1 — Python's
`or` treats a 0 maximum like an empty table. -/
theorem create_incident_id_zero_max :
    sql_max_id (([⟨0, "T0", "Phishing", "High", "Open", "d"⟩] :
        List IncidentRow).map (fun r => r.incident_id)) = some 0 ∧
    (create_incident [⟨0, "T0", "Phishing", "High", "Open", "d"⟩]
      "Malware" "Low" "d2" none "T1").1 = 1001 ∧
    (1001 : Int) ≠ 0 + 1 := by
  refine ⟨?_, ?_, by decide⟩
  · rw [sql_max_id_eq_some_iff]
    decide
  · rfl

/-- C6 amended: create() returns, and inserts a row carrying, the id
(current max id in the table, or the domain floor when the table is empty
or the max id equals 0) plus one; the first incident gets 1001, the first
ticket 2001, the first dataset 1. For datasets the floor is 0, so the
zero-max case coincides with max-plus-one. -/
theorem create_id_allocation (incs : List IncidentRow) (tix : List TicketRow)
    (ds : List DatasetRow) (m : Int) (it sv de : String) (rb : Option String)
    (pr de2 : String) (asg : Option String) (nm ub : String) (rw cl : Int)
    (t : String) :
    ((create_incident [] it sv de rb t).1 = 1001 ∧
      (create_ticket [] pr de2 asg t).1 = 2001 ∧
      (create_dataset [] nm rw cl ub t).1 = 1) ∧
    (m ∈ incs.map (fun r => r.incident_id) →
      (∀ x ∈ incs.map (fun r => r.incident_id), x ≤ m) →
      (m ≠ 0 → (create_incident incs it sv de rb t).1 = m + 1) ∧
      (m = 0 → (create_incident incs it sv de rb t).1 = 1001)) ∧
    (m ∈ tix.map (fun r => r.ticket_id) →
      (∀ x ∈ tix.map (fun r => r.ticket_id), x ≤ m) →
      (m ≠ 0 → (create_ticket tix pr de2 asg t).1 = m + 1) ∧
      (m = 0 → (create_ticket tix pr de2 asg t).1 = 2001)) ∧
    (m ∈ ds.map (fun r => r.dataset_id) →
      (∀ x ∈ ds.map (fun r => r.dataset_id), x ≤ m) →
      (create_dataset ds nm rw cl ub t).1 = m + 1) ∧
    (∃ r ∈ (create_incident incs it sv de rb t).2,
      r.incident_id = (create_incident incs it sv de rb t).1) ∧
    (∃ r ∈ (create_ticket tix pr de2 asg t).2,
      r.ticket_id = (create_ticket tix pr de2 asg t).1) ∧
    (∃ r ∈ (create_dataset ds nm rw cl ub t).2,
      r.dataset_id = (create_dataset ds nm rw cl ub t).1) := by
  refine ⟨⟨rfl, rfl, rfl⟩, ?_, ?_, ?_, ?_, ?_, ?_⟩
  · intro hmem hub
    have hmax : sql_max_id (incs.map (fun r => r.incident_id)) = some m :=
      (sql_max_id_eq_some_iff _ m).mpr ⟨hmem, hub⟩
    constructor <;> intro hm <;>
      simp [create_incident, next_incident_id, pyOrInt, hmax, hm]
  · intro hmem hub
    have hmax : sql_max_id (tix.map (fun r => r.ticket_id)) = some m :=
      (sql_max_id_eq_some_iff _ m).mpr ⟨hmem, hub⟩
    constructor <;> intro hm <;>
      simp [create_ticket, next_ticket_id, pyOrInt, hmax, hm]
  · intro hmem hub
    have hmax : sql_max_id (ds.map (fun r => r.dataset_id)) = some m :=
      (sql_max_id_eq_some_iff _ m).mpr ⟨hmem, hub⟩
    by_cases hm : m = 0
    · subst hm
      simp [create_dataset, next_dataset_id, pyOrInt, hmax]
    · simp [create_dataset, next_dataset_id, pyOrInt, hmax, hm]
  · exact ⟨_, List.mem_append_right incs (List.mem_singleton.mpr rfl), rfl⟩
  · exact ⟨_, List.mem_append_right tix (List.mem_singleton.mpr rfl), rfl⟩
  · exact ⟨_, List.mem_append_right ds (List.mem_singleton.mpr rfl), rfl⟩

/-- C6 witness: on a table whose maximum incident id is 5, the next created
incident gets id 6. -/
theorem create_id_allocation_witness :
    (create_incident [⟨5, "T0", "Phishing", "High", "Open", "d"⟩]
      "Malware" "Low" "d2" none "T1").1 = 6 :=
  ((create_id_allocation [⟨5, "T0", "Phishing", "High", "Open", "d"⟩] [] [] 5
      "Malware" "Low" "d2" none "P" "D" none "N" "U" 0 0 "T1").2.1
    (by decide) (by decide)).1 (by decide)

/-- C7 counterexample: `create_incident` accepts a `reported_by` argument
but the INSERT column list omits it, so reading the new incident back gives
`reported_by = None`, not the supplied value. -/
theorem create_incident_drops_reported_by :
    get_incident_by_id
        (create_incident [] "Phishing" "High" "desc" (some "alice") "T0").2
        (create_incident [] "Phishing" "High" "desc" (some "alice") "T0").1
      = some ⟨1001, "Phishing", "High", "Open", "desc", some "T0", none⟩ ∧
    Option.map SecurityIncident.reported_by
        (get_incident_by_id
          (create_incident [] "Phishing" "High" "desc" (some "alice") "T0").2
          (create_incident [] "Phishing" "High" "desc" (some "alice") "T0").1)
      ≠ some (some "alice") := by
  constructor
  · rfl
  · decide

/-- C7 amended: after create(), getById(newId) returns an entity with
status "Open" and every inserted field equal to the corresponding argument
— except the incident's `reported_by` argument, which is dropped by the
INSERT and read back as None regardless of what was supplied. -/
theorem create_get_roundtrip (incs : List IncidentRow) (tix : List TicketRow)
    (ds : List DatasetRow) (it sv de : String) (rb : Option String)
    (pr de2 : String) (asg : Option String) (nm ub : String) (rw cl : Int)
    (t : String) :
    get_incident_by_id (create_incident incs it sv de rb t).2
        (create_incident incs it sv de rb t).1
      = some ⟨(create_incident incs it sv de rb t).1, it, sv, "Open", de,
          some t, none⟩ ∧
    get_ticket_by_id (create_ticket tix pr de2 asg t).2
        (create_ticket tix pr de2 asg t).1
      = some ⟨(create_ticket tix pr de2 asg t).1, pr, de2, "Open", asg, t,
          none⟩ ∧
    get_dataset_by_id (create_dataset ds nm rw cl ub t).2
        (create_dataset ds nm rw cl ub t).1
      = some ⟨(create_dataset ds nm rw cl ub t).1, nm, rw, cl, ub, t⟩ := by
  refine ⟨?_, ?_, ?_⟩
  · have hfresh : ∀ r ∈ incs,
        (r.incident_id == next_incident_id incs) = false := by
      intro r hr
      have := mem_lt_next_id (incs.map (fun x => x.incident_id)) 1000
        r.incident_id (by omega) (List.mem_map_of_mem _ hr)
      simp only [beq_eq_false_iff_ne, ne_eq]
      unfold next_incident_id
      omega
    simp only [create_incident, get_incident_by_id]
    rw [find_append_fresh _ incs _ hfresh (by simp [next_incident_id])]
    rfl
  · have hfresh : ∀ r ∈ tix,
        (r.ticket_id == next_ticket_id tix) = false := by
      intro r hr
      have := mem_lt_next_id (tix.map (fun x => x.ticket_id)) 2000
        r.ticket_id (by omega) (List.mem_map_of_mem _ hr)
      simp only [beq_eq_false_iff_ne, ne_eq]
      unfold next_ticket_id
      omega
    simp only [create_ticket, get_ticket_by_id]
    rw [find_append_fresh _ tix _ hfresh (by simp [next_ticket_id])]
    rfl
  · have hfresh : ∀ r ∈ ds,
        (r.dataset_id == next_dataset_id ds) = false := by
      intro r hr
      have := mem_lt_next_id (ds.map (fun x => x.dataset_id)) 0
        r.dataset_id (by omega) (List.mem_map_of_mem _ hr)
      simp only [beq_eq_false_iff_ne, ne_eq]
      unfold next_dataset_id
      omega
    simp only [create_dataset, get_dataset_by_id]
    rw [find_append_fresh _ ds _ hfresh (by simp [next_dataset_id])]
    rfl

/-- The data-model invariant on the incidents table: every stored severity
and status lies in its enumerated set. -/
def incTableInv (tbl : List IncidentRow) : Prop :=
  ∀ r ∈ tbl, r.severity ∈ severityLevels ∧ r.status ∈ incidentStatuses

/-- The data-model invariant on the tickets table: every stored priority
and status lies in its enumerated set. -/
def ticketTableInv (tbl : List TicketRow) : Prop :=
  ∀ r ∈ tbl, r.priority ∈ severityLevels ∧ r.status ∈ ticketStatuses

/-- The data-model invariant on the users table: every stored role lies in
the enumerated role set. -/
def userTableInv (tbl : List UserRow) : Prop :=
  ∀ u ∈ tbl, u.role ∈ accountRoles

/-- C9 counterexample: the services do not validate enumeration values — a
status update with an arbitrary string is accepted and stored, taking a
store whose values all lie in the enumerated sets (severity High, status
Open) to one holding a status outside them. -/
theorem update_status_escapes_enums :
    incTableInv [⟨1001, "T0", "Phishing", "High", "Open", "d"⟩] ∧
    update_incident_status [⟨1001, "T0", "Phishing", "High", "Open", "d"⟩]
        1001 "Bogus"
      = (true, [⟨1001, "T0", "Phishing", "High", "Bogus", "d"⟩]) ∧
    ¬ incTableInv [⟨1001, "T0", "Phishing", "High", "Bogus", "d"⟩] := by
  refine ⟨?_, by decide, ?_⟩
  · intro r hr
    simp only [List.mem_singleton] at hr
    subst hr
    decide
  · intro h
    have := h ⟨1001, "T0", "Phishing", "High", "Bogus", "d"⟩
      (List.mem_singleton.mpr rfl)
    revert this
    decide

/-- C9 amended: the core operations preserve the enumerated-set invariants
only when their enumeration-valued arguments themselves lie in the
enumerated sets; the services store those arguments unvalidated. -/
theorem ops_preserve_enums (users : List UserRow) (incs : List IncidentRow)
    (tix : List TicketRow) (salt : Nat) (u p role : String)
    (it sv de st : String) (rb : Option String) (pr de2 st2 : String)
    (asg : Option String) (iid tid : Int) (t : String) :
    (userTableInv users → role ∈ accountRoles →
      userTableInv (register_user users salt u p role).2) ∧
    (incTableInv incs → sv ∈ severityLevels →
      incTableInv (create_incident incs it sv de rb t).2) ∧
    (incTableInv incs → st ∈ incidentStatuses →
      incTableInv (update_incident_status incs iid st).2) ∧
    (ticketTableInv tix → pr ∈ severityLevels →
      ticketTableInv (create_ticket tix pr de2 asg t).2) ∧
    (ticketTableInv tix → st2 ∈ ticketStatuses →
      ticketTableInv (update_ticket_status tix tid st2).2) ∧
    (ticketTableInv tix → ticketTableInv (assign_ticket tix tid asg).2) := by
  refine ⟨?_, ?_, ?_, ?_, ?_, ?_⟩
  · intro hinv hrole x hx
    unfold register_user at hx
    split_ifs at hx <;> first
      | exact hinv x hx
      | · rcases List.mem_append.mp hx with hx1 | hx1
          · exact hinv x hx1
          · rw [List.mem_singleton.mp hx1]
            exact hrole
  · intro hinv hsv x hx
    rcases List.mem_append.mp hx with hx1 | hx1
    · exact hinv x hx1
    · rw [List.mem_singleton.mp hx1]
      exact ⟨hsv, show "Open" ∈ incidentStatuses by decide⟩
  · intro hinv hst x hx
    simp only [update_incident_status, List.mem_map] at hx
    obtain ⟨a, ha, hax⟩ := hx
    by_cases hc : (a.incident_id == iid) = true
    · rw [if_pos hc] at hax
      subst hax
      exact ⟨(hinv a ha).1, hst⟩
    · rw [if_neg hc] at hax
      subst hax
      exact hinv a ha
  · intro hinv hpr x hx
    rcases List.mem_append.mp hx with hx1 | hx1
    · exact hinv x hx1
    · rw [List.mem_singleton.mp hx1]
      exact ⟨hpr, show "Open" ∈ ticketStatuses by decide⟩
  · intro hinv hst x hx
    simp only [update_ticket_status, List.mem_map] at hx
    obtain ⟨a, ha, hax⟩ := hx
    by_cases hc : (a.ticket_id == tid) = true
    · rw [if_pos hc] at hax
      subst hax
      exact ⟨(hinv a ha).1, hst⟩
    · rw [if_neg hc] at hax
      subst hax
      exact hinv a ha
  · intro hinv x hx
    simp only [assign_ticket, List.mem_map] at hx
    obtain ⟨a, ha, hax⟩ := hx
    by_cases hc : (a.ticket_id == tid) = true
    · rw [if_pos hc] at hax
      subst hax
      exact hinv a ha
    · rw [if_neg hc] at hax
      subst hax
      exact hinv a ha

/-- C9 witness: a concrete in-range update keeps the incident invariant. -/
theorem ops_preserve_enums_witness :
    incTableInv (update_incident_status
      [⟨1001, "T0", "Phishing", "High", "Open", "d"⟩] 1001 "Closed").2 :=
  (ops_preserve_enums [] [⟨1001, "T0", "Phishing", "High", "Open", "d"⟩] []
      7 "u" "p" "user" "it" "High" "de" "Closed" none "pr" "de2" "Open"
      none 1001 0 "T").2.2.1
    (by intro r hr; simp only [List.mem_singleton] at hr; subst hr; decide)
    (by decide)

end Platform
